import Mathlib

/-!
# Verification of the ticket hierarchy / relationship / sprint-aggregation engine

Shallow embedding of the core of the data-gen repository:
`src/models/ticket.py` (data model) and `src/generators/ticket_generator.py`
(factories, relationship graph manager, blocking lifecycle controller, sprint
aggregator).

Modelling conventions:
* Python `datetime` values are modelled as `Int` time-stamps (`datetime.now()`
  becomes an explicit `now : Int` parameter; `timedelta(days = d)` becomes
  integer subtraction of `d`).
* Python `float` values are modelled as `ℚ`.
* Every random draw (`random.random()`, `random.randint`, `random.choice`,
  `random.sample`) is passed in as an explicit parameter, with its range
  expressed as a hypothesis where a claim needs it.
* LLM-produced content (descriptions, summaries, extracted story points) is
  passed in as explicit parameters: the generator treats these as opaque data.
* The in-memory dictionaries keyed by identifier (`self.sprints`,
  `self.epics`, ...) are modelled as Lean lists; dictionary lookup is lookup
  by the `id` field.
-/

namespace DataGen

inductive TicketType where
  | EPIC | STORY | TASK | SUBTASK | BUG
  deriving DecidableEq, Repr

inductive TicketStatus where
  | TO_DO | IN_PROGRESS | IN_REVIEW | BLOCKED | DONE
  deriving DecidableEq, Repr

inductive TicketPriority where
  | HIGHEST | HIGH | MEDIUM | LOW | LOWEST
  deriving DecidableEq, Repr

inductive Component where
  | FRONTEND | BACKEND | DATABASE | INFRASTRUCTURE | SECURITY | TESTING
  deriving DecidableEq, Repr

inductive SprintStatus where
  | PLANNED | ACTIVE | COMPLETED | CANCELLED
  deriving DecidableEq, Repr

/-- Enum `TicketRelationType` from `src/models/ticket.py`. -/
inductive TicketRelationType where
  | BLOCKS | BLOCKED_BY | CLONES | CLONED_BY | DUPLICATES | DUPLICATED_BY
  | RELATES_TO | IMPLEMENTS | IMPLEMENTED_BY | DEPENDS_ON | REQUIRED_FOR
  deriving DecidableEq, Repr, Fintype

/-- Model of `Comment` from `src/models/ticket.py`; reactions map modelled as an
association list. -/
structure Comment where
  id : String
  author_id : String
  content : String
  created_at : Int
  updated_at : Option Int := none
  reactions : List (String × List String) := []
  deriving DecidableEq, Repr

/-- The `Ticket` pydantic model from `src/models/ticket.py`, flattened
together with the variant-specific fields of its subclasses
(`Epic.child_stories`/`target_start`/`target_end`, `Story.user_persona`/
`business_value`, `Task.technical_details`, `Bug.severity`/
`steps_to_reproduce`/`actual_behavior`/`expected_behavior`/`workaround`),
as a single record discriminated by the `type` tag — the shape the generator
actually produces (each factory constructs exactly one variant and sets its
`type` accordingly).  `relationship_notes : Dict[str, Dict[str, str]]` is an
association list of association lists.  Defaults mirror the pydantic field
defaults. -/
structure Ticket where
  id : String
  type : TicketType
  summary : String
  description : String
  status : TicketStatus := .TO_DO
  priority : TicketPriority := .MEDIUM
  epic_link : Option String := none
  parent_ticket : Option String := none
  subtasks : List String := []
  related_tickets : List String := []
  sprint_id : Option String := none
  blocks : List String := []
  blocked_by : List String := []
  depends_on : List String := []
  required_for : List String := []
  clones : List String := []
  cloned_by : List String := []
  duplicates : List String := []
  duplicated_by : List String := []
  implements : List String := []
  implementedBy : List String := []
  blocking_reason : Option String := none
  relationship_notes : List (String × List (String × String)) := []
  reporter_id : String
  assignee_id : Option String := none
  watchers : List String := []
  components : List Component := []
  fix_versions : List String := []
  affected_versions : List String := []
  created_at : Int
  updated_at : Int
  resolved_at : Option Int := none
  due_date : Option Int := none
  estimated_hours : Option ℚ := none
  spent_hours : ℚ := 0
  blocked_since : Option Int := none
  labels : List String := []
  comments : List Comment := []
  story_points : Option Int := none
  environment : Option String := none
  acceptance_criteria : Option (List String) := none
  child_stories : List String := []
  target_start : Option Int := none
  target_end : Option Int := none
  user_persona : Option String := none
  business_value : Option String := none
  technical_details : Option String := none
  severity : Option TicketPriority := none
  steps_to_reproduce : List String := []
  actual_behavior : Option String := none
  expected_behavior : Option String := none
  workaround : Option String := none
  deriving DecidableEq, Repr

/-- The `Sprint` pydantic model from `src/models/ticket.py`. -/
structure Sprint where
  id : String
  name : String
  goal : String
  start_date : Int
  end_date : Int
  status : SprintStatus := .PLANNED
  tickets : List String := []
  story_points_committed : Int := 0
  story_points_completed : Int := 0
  team_id : String
  retrospective_notes : Option String := none
  demo_date : Option Int := none
  planning_notes : Option String := none
  velocity : Option ℚ := none
  deriving DecidableEq, Repr

/-! ## Relationship graph manager (`_create_relationship` and helpers) -/

/-- The Python attribute name the source computes by
`relation_type.value.replace(" ", "_")`. -/
def relAttrName : TicketRelationType → String
  | .BLOCKS => "blocks"
  | .BLOCKED_BY => "blocked_by"
  | .CLONES => "clones"
  | .CLONED_BY => "cloned_by"
  | .DUPLICATES => "duplicates"
  | .DUPLICATED_BY => "duplicated_by"
  | .RELATES_TO => "relates_to"
  | .IMPLEMENTS => "implements"
  | .IMPLEMENTED_BY => "implemented_by"
  | .DEPENDS_ON => "depends_on"
  | .REQUIRED_FOR => "required_for"

/-- Python `getattr(ticket, attr)` for the relationship-list attributes, indexed by
the relation type whose `relAttrName` is the attribute.  `RELATES_TO`
(`"relates_to"`) names no attribute of the `Ticket` model — `getattr` would
raise — but `_create_relationship` raises `KeyError` on its reverse-relation
lookup before reaching `getattr`, so that case is unreachable; we return the
closest field (`related_tickets`) there. -/
def getRel (t : Ticket) : TicketRelationType → List String
  | .BLOCKS => t.blocks
  | .BLOCKED_BY => t.blocked_by
  | .CLONES => t.clones
  | .CLONED_BY => t.cloned_by
  | .DUPLICATES => t.duplicates
  | .DUPLICATED_BY => t.duplicated_by
  | .RELATES_TO => t.related_tickets
  | .IMPLEMENTS => t.implements
  | .IMPLEMENTED_BY => t.implementedBy
  | .DEPENDS_ON => t.depends_on
  | .REQUIRED_FOR => t.required_for

/-- Python `setattr`-style update of the relationship list named by a relation
type. -/
def setRel (t : Ticket) : TicketRelationType → List String → Ticket
  | .BLOCKS, l => { t with blocks := l }
  | .BLOCKED_BY, l => { t with blocked_by := l }
  | .CLONES, l => { t with clones := l }
  | .CLONED_BY, l => { t with cloned_by := l }
  | .DUPLICATES, l => { t with duplicates := l }
  | .DUPLICATED_BY, l => { t with duplicated_by := l }
  | .RELATES_TO, l => { t with related_tickets := l }
  | .IMPLEMENTS, l => { t with implements := l }
  | .IMPLEMENTED_BY, l => { t with implementedBy := l }
  | .DEPENDS_ON, l => { t with depends_on := l }
  | .REQUIRED_FOR, l => { t with required_for := l }

/-- The `reverse_relations` dictionary of `_create_relationship`
(`ticket_generator.py` lines 524–530); `none` models the `KeyError` raised
when `relation_type` is not a key. -/
def reverse_relations : TicketRelationType → Option TicketRelationType
  | .BLOCKS => some .BLOCKED_BY
  | .CLONES => some .CLONED_BY
  | .DUPLICATES => some .DUPLICATED_BY
  | .IMPLEMENTS => some .IMPLEMENTED_BY
  | .DEPENDS_ON => some .REQUIRED_FOR
  | _ => none

/-- Python `inner[key] = value` on a Python dict modelled as an association list. -/
def dictSet (inner : List (String × String)) (k v : String) :
    List (String × String) :=
  if (inner.find? (fun p => p.1 = k)).isSome then
    inner.map (fun p => if p.1 = k then (p.1, v) else p)
  else inner ++ [(k, v)]

/-- The note-recording step of `_create_relationship`:
`if forward_attr not in notes: notes[forward_attr] = {}` followed by
`notes[forward_attr][target_id] = note`. -/
def notesSet (m : List (String × List (String × String)))
    (relKey tid note : String) : List (String × List (String × String)) :=
  if (m.find? (fun p => p.1 = relKey)).isSome then
    m.map (fun p => if p.1 = relKey then (p.1, dictSet p.2 tid note) else p)
  else m ++ [(relKey, [(tid, note)])]

/-- Lookup in the two-level notes map. -/
def notesGet (m : List (String × List (String × String)))
    (relKey tid : String) : Option String :=
  match m.find? (fun p => p.1 = relKey) with
  | none => none
  | some p => (p.2.find? (fun q => q.1 = tid)).map (fun q => q.2)

/-- Function `_create_relationship(source_ticket, target_ticket, relation_type, note)`
(`ticket_generator.py` lines 515–544).  Returns the updated
`(source, target)` pair, or `none` when the `reverse_relations` lookup
raises `KeyError`.  The note is recorded only when `note` is truthy
(a non-`None`, non-empty string), matching Python's `if note:`. -/
def create_relationship (source_ticket target_ticket : Ticket)
    (relation_type : TicketRelationType) (note : Option String) :
    Option (Ticket × Ticket) :=
  match reverse_relations relation_type with
  | none => none
  | some rev =>
    let src := setRel source_ticket relation_type
      (getRel source_ticket relation_type ++ [target_ticket.id])
    let tgt := setRel target_ticket rev
      (getRel target_ticket rev ++ [source_ticket.id])
    let src :=
      match note with
      | some n =>
        if n = "" then src
        else
          let m := notesSet src.relationship_notes (relAttrName relation_type)
            target_ticket.id n
          { src with relationship_notes := m }
      | none => src
    some (src, tgt)

/-! ## Store-level semantics of edge creation

The generator keeps the tickets it wires together in Python lists/dicts of
object references; `_create_relationship` mutates two of those objects in
place.  We model a collection of tickets as a `List Ticket` and an in-place
mutation as a `map` that rewrites the tickets whose `id` matches.  Applying
the source-update first and the target-update second to the same element
reproduces Python's aliasing behaviour when both ids name the same object. -/

/-- Python `getattr(t, attr).append(x)` for a relationship-list attribute. -/
def appendRel (t : Ticket) (T : TicketRelationType) (x : String) : Ticket :=
  setRel t T (getRel t T ++ [x])

/-- The note-recording step of `_create_relationship` on the source ticket
(`if note:` is Python truthiness: a `None` or empty note records nothing). -/
def recordNote (t : Ticket) (T : TicketRelationType) (tid : String) :
    Option String → Ticket
  | some n =>
    if n = "" then t
    else { t with relationship_notes :=
            notesSet t.relationship_notes (relAttrName T) tid n }
  | none => t

/-- Effect of one `_create_relationship(src, tgt, rt, note)` call on a single
stored ticket (`rev` is the already-looked-up reverse relation): the forward
append plus note when the ticket is the source, then the reverse append when
it is the target. -/
def relUpdateOne (srcId tgtId : String) (rt rev : TicketRelationType)
    (note : Option String) (t : Ticket) : Ticket :=
  let t1 := if t.id = srcId then recordNote (appendRel t rt tgtId) rt tgtId note
    else t
  if t1.id = tgtId then appendRel t1 rev srcId else t1

/-- One edge-creating call, at the level of the ticket store. -/
structure RelOp where
  srcId : String
  tgtId : String
  rt : TicketRelationType
  note : Option String
  deriving DecidableEq, Repr

/-- Apply one `_create_relationship` call to the store; `none` models the
`KeyError` on an undefined reverse relation. -/
def applyRelOp (store : List Ticket) (op : RelOp) : Option (List Ticket) :=
  match reverse_relations op.rt with
  | none => none
  | some rev =>
    some (store.map (relUpdateOne op.srcId op.tgtId op.rt rev op.note))

/-- Apply a sequence of `_create_relationship` calls. -/
def applyRelOps (ops : List RelOp) (store : List Ticket) :
    Option (List Ticket) :=
  ops.foldlM applyRelOp store

/-- The inverse pairing of edge types stated by the specification
(blocks↔blocked-by, clones↔cloned-by, duplicates↔duplicated-by,
implements↔implemented-by, depends-on↔required-for), as an involution. -/
def invRel : TicketRelationType → Option TicketRelationType
  | .BLOCKS => some .BLOCKED_BY
  | .BLOCKED_BY => some .BLOCKS
  | .CLONES => some .CLONED_BY
  | .CLONED_BY => some .CLONES
  | .DUPLICATES => some .DUPLICATED_BY
  | .DUPLICATED_BY => some .DUPLICATES
  | .IMPLEMENTS => some .IMPLEMENTED_BY
  | .IMPLEMENTED_BY => some .IMPLEMENTS
  | .DEPENDS_ON => some .REQUIRED_FOR
  | .REQUIRED_FOR => some .DEPENDS_ON
  | .RELATES_TO => none

/-- Edge symmetry of a ticket store: whenever ticket `a` lists `b.id` under
an edge type with a defined inverse, `b` lists `a.id` under that inverse. -/
def Symm (store : List Ticket) : Prop :=
  ∀ a ∈ store, ∀ b ∈ store, ∀ T T', invRel T = some T' →
    b.id ∈ getRel a T → a.id ∈ getRel b T'

instance (store : List Ticket) : Decidable (Symm store) := by
  unfold Symm; infer_instance

/-! ## Sprint aggregator -/

/-- Function `assign_ticket_to_sprint(ticket, sprint)` (`ticket_generator.py` lines
475–480).  `sprints` is `self.sprints` (dict keyed by sprint id, modelled as
a list looked up by the `id` field).  The source checks
`isinstance(ticket, Epic)`; every ticket the generator produces has its
class variant equal to its `type` tag, so the check is modelled as
`ticket.type = EPIC`.  Returns the updated sprint collection and the updated
ticket. -/
def assign_ticket_to_sprint (sprints : List Sprint) (ticket : Ticket)
    (sprint : Sprint) : List Sprint × Ticket :=
  if ticket.type = TicketType.EPIC then (sprints, ticket)
  else
    let t := { ticket with sprint_id := some sprint.id }
    if sprints.any (fun sp => sp.id = sprint.id) then
      (sprints.map (fun sp =>
        if sp.id = sprint.id then { sp with tickets := sp.tickets ++ [t.id] }
        else sp), t)
    else (sprints, t)

/-- A sequence of sprint assignments, folded over the sprint collection
(each call supplies its own ticket and sprint argument, as at the source's
call sites). -/
def applyAssigns (ops : List (Ticket × Sprint)) (sprints : List Sprint) :
    List Sprint :=
  ops.foldl (fun st op => (assign_ticket_to_sprint st op.1 op.2).1) sprints

/-! ## Blocking lifecycle controller -/

/-- The fixed `blocking_reasons` pool of `_create_blocking_issue`
(`ticket_generator.py` lines 501–509). -/
def blocking_reasons : List String :=
  ["Waiting for external API documentation",
   "Pending security review",
   "Infrastructure upgrade required",
   "Dependent service not yet available",
   "Awaiting client feedback",
   "Technical debt needs to be addressed first",
   "Resource constraints"]

/-- Function `_create_blocking_issue(ticket)` (`ticket_generator.py` lines 498–513).
`p` is `self.blocking_probability`, `r` the `random.random()` draw
(`0 ≤ r < 1`), `reasonIdx` the `random.choice` index into the reason pool,
`d` the `random.randint(1, 5)` draw, `now` the `datetime.now()` time-stamp. -/
def create_blocking_issue (p r : ℚ) (reasonIdx : Fin 7) (d now : Int)
    (ticket : Ticket) : Ticket :=
  if r < p then
    { ticket with
      status := .BLOCKED
      blocking_reason := some (blocking_reasons.get (Fin.cast (by rfl) reasonIdx))
      blocked_since := some (now - d) }
  else ticket

/-! ## Dependency wiring (`_create_dependencies`) -/

/-- The body of the `for dep in dependencies` loop of `_create_dependencies`
(`ticket_generator.py` lines 492–496): look up the sampled candidate by id;
if `ticket.id not in dep.depends_on`, append `dep.id` to the ticket's
`depends_on` and `ticket.id` to the candidate's `blocks`. -/
def addDependency (store : List Ticket) (ticketId depId : String) :
    List Ticket :=
  match store.find? (fun t => t.id = depId) with
  | none => store
  | some dep =>
    if ticketId ∈ dep.depends_on then store
    else store.map (fun t =>
      let t1 := if t.id = ticketId then
          { t with depends_on := t.depends_on ++ [depId] } else t
      if t1.id = depId then { t1 with blocks := t1.blocks ++ [ticketId] }
      else t1)

/-- Function `_create_dependencies(ticket, available_tickets)` (`ticket_generator.py`
lines 482–496).  `fire` is the outcome of
`random.random() < self.dependency_probability`; `depIds` the ids of the
`random.sample` of 1–2 candidates. -/
def create_dependencies (store : List Ticket) (ticketId : String)
    (fire : Bool) (depIds : List String) : List Ticket :=
  if fire then depIds.foldl (fun st d => addDependency st ticketId d) store
  else store

/-! ## Sprint generation (`generate_sprints_for_team`) -/

/-- The fixed fallback goal pool of `generate_sprints_for_team`
(`ticket_generator.py` lines 446–454). -/
def sprint_goals : List String :=
  ["Improve system performance and reliability",
   "Enhance user experience and interface",
   "Implement new features and capabilities",
   "Fix critical bugs and technical debt",
   "Optimize system architecture",
   "Strengthen security measures",
   "Improve code quality and test coverage"]

/-- Goal selection of `generate_sprints_for_team` (lines 443–455):
an initiative-derived string when `current_initiative` is set, otherwise a
`random.choice` from the fixed pool. -/
def sprintGoal (current_initiative : Option String) (gi : Fin 7) : String :=
  match current_initiative with
  | some ini => "Deliver key features for " ++ ini ++ " initiative"
  | none => sprint_goals.get (Fin.cast (by rfl) gi)

/-- One iteration of the sprint-generation loop of
`generate_sprints_for_team` (`ticket_generator.py` lines 437–471).
`freshId` is the `generate_id("SPRINT")` draw for this iteration,
`teamName` the team's name, `counter` the current `self.sprint_counter`,
`dur` `self.sprint_duration_days`, `now` `datetime.now()`, `num_sprints` and
`i` the loop bounds/index.  Fields not passed to the `Sprint(...)`
constructor keep their pydantic defaults (`story_points_committed = 0`,
`story_points_completed = 0`, `velocity = None`). -/
def mkTeamSprint (freshId teamName teamId : String) (counter : Nat)
    (dur now : Int) (goal : String) (num_sprints i : Nat) : Sprint :=
  let start_date := now - dur * ((num_sprints : Int) - (i : Int))
  { id := freshId
    name := teamName ++ " Sprint " ++ toString counter
    goal := goal
    start_date := start_date
    end_date := start_date + dur
    status := if i < num_sprints - 1 then .COMPLETED else .ACTIVE
    team_id := teamId
    tickets := [] }

/-- Function `generate_sprints_for_team(team_id, num_sprints)`: the list of sprints
produced by the loop (team lookup and registration elided; `freshIds` and
`goals` supply the per-iteration random draws, `counter0` the starting
`self.sprint_counter`). -/
def generate_sprints_for_team (freshIds : Nat → String)
    (teamName teamId : String) (counter0 : Nat) (dur now : Int)
    (goals : Nat → String) (num_sprints : Nat) : List Sprint :=
  (List.range num_sprints).map (fun i =>
    mkTeamSprint (freshIds i) teamName teamId (counter0 + i) dur now
      (goals i) num_sprints i)

/-! ## Ticket factories and the shared ticket counter

Each factory (`generate_epic`, `generate_story`, `generate_task`,
`generate_subtask`, `generate_bug`) embeds the current value of the shared
`self.ticket_counter` in the new ticket's identifier (f-strings
`f"EPIC-{self.ticket_counter}"` etc., or `generate_ticket_id("SUBTASK",
self.ticket_counter)` = `f"SUBTASK-{number}"`) and then increments the
counter, and registers the ticket in the per-variant collection. -/

/-- Decimal rendering of a natural number (Python's `str(n)` inside the
f-strings building ticket ids). -/
def natDecimal (n : Nat) : List Char :=
  if n = 0 then ['0'] else ((Nat.digits 10 n).map Nat.digitChar).reverse

/-- Function `generate_ticket_id` from
`src/generators/utils.py`: `f"{project_prefix}-{number}"`. -/
def generate_ticket_id ( project_prefix : String) (number : Nat) : String :=
  project_prefix ++ "-" ++ String.mk (natDecimal number)

/-- The data external to the counter that one factory call consumes:
random team-member draws, LLM-generated content, random story-point and
date draws, and the component argument.  These do not influence the
identifier. -/
structure FactoryArgs where
  reporter_id : String
  assignee_id : String
  description : String
  summary : String
  points : Int
  now : Int
  d1 : Int
  d2 : Int
  component : Component
  deriving Repr

/-- Generator state relevant to ticket creation: the shared
`self.ticket_counter` and the per-variant collections (dicts keyed by id,
modelled as lists in insertion order). -/
structure TGState where
  ticket_counter : Nat
  epics : List Ticket := []
  stories : List Ticket := []
  tasks : List Ticket := []
  subtasks : List Ticket := []
  bugs : List Ticket := []

/-- Function `generate_epic(component)` (`ticket_generator.py` lines 179–215). -/
def generate_epic (g : TGState) (a : FactoryArgs) : TGState × Ticket :=
  let epic_id := "EPIC-" ++ String.mk (natDecimal g.ticket_counter)
  let epic : Ticket :=
    { id := epic_id
      type := .EPIC
      summary := a.summary
      description := a.description
      status := .IN_PROGRESS
      priority := .HIGH
      reporter_id := a.reporter_id
      assignee_id := some a.assignee_id
      components := [a.component]
      story_points := some a.points
      created_at := a.now
      updated_at := a.now }
  ({ g with ticket_counter := g.ticket_counter + 1,
            epics := g.epics ++ [epic] }, epic)

/-- Function `generate_story(epic, component)` (lines 217–255); `epicId` is `epic.id`. -/
def generate_story (g : TGState) (a : FactoryArgs) (epicId : String) :
    TGState × Ticket :=
  let story_id := "STORY-" ++ String.mk (natDecimal g.ticket_counter)
  let story : Ticket :=
    { id := story_id
      type := .STORY
      summary := a.summary
      description := a.description
      status := .IN_PROGRESS
      priority := .MEDIUM
      reporter_id := a.reporter_id
      assignee_id := some a.assignee_id
      epic_link := some epicId
      components := [a.component]
      story_points := some a.points
      created_at := a.now
      updated_at := a.now }
  ({ g with ticket_counter := g.ticket_counter + 1,
            stories := g.stories ++ [story] }, story)

/-- Function `generate_task(component)` (lines 257–294). -/
def generate_task (g : TGState) (a : FactoryArgs) : TGState × Ticket :=
  let task_id := "TASK-" ++ String.mk (natDecimal g.ticket_counter)
  let task : Ticket :=
    { id := task_id
      type := .TASK
      summary := a.summary
      description := a.description
      status := .IN_PROGRESS
      priority := .MEDIUM
      reporter_id := a.reporter_id
      assignee_id := some a.assignee_id
      components := [a.component]
      story_points := some a.points
      created_at := a.now
      updated_at := a.now }
  ({ g with ticket_counter := g.ticket_counter + 1,
            tasks := g.tasks ++ [task] }, task)

/-- Function `generate_subtask(task, component)` (lines 296–334); `parentId` is
`task.id`, `a.d1`/`a.d2` the `random.randint(1, 5)`/`random.randint(1, 3)`
date offsets, `a.points` the LLM-extracted story points. -/
def generate_subtask (g : TGState) (a : FactoryArgs) (parentId : String) :
    TGState × Ticket :=
  let subtask_id := generate_ticket_id "SUBTASK" g.ticket_counter
  let subtask : Ticket :=
    { id := subtask_id
      type := .SUBTASK
      summary := a.summary
      description := a.description
      status := .IN_PROGRESS
      priority := .MEDIUM
      parent_ticket := some parentId
      reporter_id := a.reporter_id
      assignee_id := some a.assignee_id
      components := [a.component]
      created_at := a.now - a.d1
      updated_at := a.now - a.d2
      story_points := some a.points
      technical_details := none }
  ({ g with ticket_counter := g.ticket_counter + 1,
            subtasks := g.subtasks ++ [subtask] }, subtask)

/-- Function `generate_bug(component, related_tickets)` (lines 336–411); the parsed
steps/behaviour fields are part of the opaque LLM content and are passed in. -/
def generate_bug (g : TGState) (a : FactoryArgs) (steps : List String)
    (actual expected : String) : TGState × Ticket :=
  let bug_id := "BUG-" ++ String.mk (natDecimal g.ticket_counter)
  let bug : Ticket :=
    { id := bug_id
      type := .BUG
      summary := a.summary
      description := a.description
      status := .IN_PROGRESS
      priority := .HIGH
      reporter_id := a.reporter_id
      assignee_id := some a.assignee_id
      components := [a.component]
      story_points := some a.points
      created_at := a.now
      updated_at := a.now
      severity := some .HIGH
      steps_to_reproduce := steps
      actual_behavior := some actual
      expected_behavior := some expected }
  ({ g with ticket_counter := g.ticket_counter + 1,
            bugs := g.bugs ++ [bug] }, bug)

/-- One factory invocation on a single generator instance. -/
inductive FactoryOp where
  | epic (a : FactoryArgs)
  | story (a : FactoryArgs) (epicId : String)
  | task (a : FactoryArgs)
  | subtask (a : FactoryArgs) (parentId : String)
  | bug (a : FactoryArgs) (steps : List String) (actual expected : String)

/-- Apply one factory invocation to the generator state. -/
def applyFactoryOp (g : TGState) : FactoryOp → TGState
  | .epic a => (generate_epic g a).1
  | .story a e => (generate_story g a e).1
  | .task a => (generate_task g a).1
  | .subtask a p => (generate_subtask g a p).1
  | .bug a s x e => (generate_bug g a s x e).1

/-- A sequence of factory invocations. -/
def runFactoryOps (ops : List FactoryOp) (g : TGState) : TGState :=
  ops.foldl applyFactoryOp g

/-- Function `get_all_tickets()` (lines 692–700): the merge of the five per-variant
collections. -/
def get_all_tickets (g : TGState) : List Ticket :=
  g.epics ++ g.stories ++ g.tasks ++ g.subtasks ++ g.bugs

/-- The generator's initial creation state: `self.ticket_counter = 1`
(`__init__`, line 33) and empty collections. -/
def initTGState : TGState :=
  { ticket_counter := 1 }

/-- The trailing run of characters after the last `'-'` of a string: for a
ticket id `"PREFIX-123"` this is the decimal counter part. -/
def numSuffix (s : String) : List Char :=
  (s.data.reverse.takeWhile (fun c => c ≠ '-')).reverse

/-- A minimal concrete ticket for witnesses: the fields the pydantic model
requires, everything else at its default. -/
def sampleTicket (id : String) (ty : TicketType) : Ticket :=
  { id := id, type := ty, summary := "s", description := "d",
    reporter_id := "M1", created_at := 0, updated_at := 0 }

/-- A minimal concrete sprint for witnesses. -/
def sampleSprint (id : String) : Sprint :=
  { id := id, name := "Sprint 1", goal := "g", start_date := 0,
    end_date := 14, team_id := "TEAM" }

/-- Invariant of the generator's creation state: every registered ticket's
id embeds a counter value strictly below the current shared counter, and
the registered ids are pairwise distinct. -/
def TGInv (g : TGState) : Prop :=
  (∀ t ∈ get_all_tickets g,
    ∃ p k, k < g.ticket_counter ∧ t.id = generate_ticket_id p k) ∧
  ((get_all_tickets g).map Ticket.id).Nodup

end DataGen

namespace DataGen

/-! ## Shared helper lemmas -/

/-- Sprint assignment never changes any sprint's story-point rollup fields:
every sprint in the post-state has the committed/completed values of a
sprint of the pre-state. -/
theorem assign_points_eq (sprints : List Sprint) (t : Ticket) (s : Sprint) :
    ∀ sp ∈ (assign_ticket_to_sprint sprints t s).1,
      ∃ sp0 ∈ sprints,
        sp.story_points_committed = sp0.story_points_committed ∧
        sp.story_points_completed = sp0.story_points_completed := by
  intro sp hsp
  unfold assign_ticket_to_sprint at hsp
  split at hsp
  · exact ⟨sp, hsp, rfl, rfl⟩
  · split at hsp
    · simp only [List.mem_map] at hsp
      obtain ⟨sp0, hsp0, rfl⟩ := hsp
      refine ⟨sp0, hsp0, ?_, ?_⟩ <;> split <;> rfl
    · exact ⟨sp, hsp, rfl, rfl⟩

/-- Iterated sprint assignment never changes any rollup field. -/
theorem applyAssigns_points_eq (ops : List (Ticket × Sprint)) :
    ∀ sprints : List Sprint, ∀ sp ∈ applyAssigns ops sprints,
      ∃ sp0 ∈ sprints,
        sp.story_points_committed = sp0.story_points_committed ∧
        sp.story_points_completed = sp0.story_points_completed := by
  induction ops with
  | nil => intro sprints sp hsp; exact ⟨sp, hsp, rfl, rfl⟩
  | cons op rest ih =>
    intro sprints sp hsp
    have hstep := assign_points_eq sprints op.1 op.2
    have hrest := ih (assign_ticket_to_sprint sprints op.1 op.2).1 sp
    rw [applyAssigns, List.foldl_cons] at hsp
    obtain ⟨sp1, hsp1, h1c, h1d⟩ := hrest hsp
    obtain ⟨sp0, hsp0, h0c, h0d⟩ := hstep sp1 hsp1
    exact ⟨sp0, hsp0, h1c.trans h0c, h1d.trans h0d⟩

/-! ## Claim theorems -/

/-- C6 (confirmed): invoking `assign_ticket_to_sprint` with an Epic is a
complete no-op — the sprint collection and every field of the ticket
(including its absent `sprint_id`) are returned unchanged. -/
theorem c6_epic_never_assigned (sprints : List Sprint) (e : Ticket)
    (s : Sprint) (h : e.type = TicketType.EPIC) :
    assign_ticket_to_sprint sprints e s = (sprints, e) := by
  simp [assign_ticket_to_sprint, h]

/-- C6 witness: a concrete Epic assigned to a concrete registered sprint
changes nothing. -/
theorem c6_epic_never_assigned_witness :
    assign_ticket_to_sprint [sampleSprint "SPR1"]
        (sampleTicket "EPIC-1" TicketType.EPIC) (sampleSprint "SPR1")
      = ([sampleSprint "SPR1"], sampleTicket "EPIC-1" TicketType.EPIC) :=
  c6_epic_never_assigned [sampleSprint "SPR1"]
    (sampleTicket "EPIC-1" TicketType.EPIC) (sampleSprint "SPR1") rfl

/-- C9 (confirmed): assigning a non-Epic ticket to a `Sprint` object whose id
is not registered in the generator's sprint collection still sets the
ticket's `sprint_id` to that id while leaving the collection — hence every
registered sprint's ticket list — unchanged. -/
theorem c9_unregistered_sprint (sprints : List Sprint) (t : Ticket)
    (s : Sprint) (h1 : t.type ≠ TicketType.EPIC)
    (h2 : sprints.any (fun sp => sp.id = s.id) = false) :
    (assign_ticket_to_sprint sprints t s).2.sprint_id = some s.id ∧
    (assign_ticket_to_sprint sprints t s).1 = sprints ∧
    ((∀ sp ∈ sprints, t.id ∉ sp.tickets) →
      ∀ sp ∈ (assign_ticket_to_sprint sprints t s).1, t.id ∉ sp.tickets) := by
  refine ⟨?_, ?_, ?_⟩ <;> simp [assign_ticket_to_sprint, h1, h2]

/-- C9 witness: a concrete Task assigned against an empty sprint collection. -/
theorem c9_unregistered_sprint_witness :
    (assign_ticket_to_sprint [] (sampleTicket "TASK-1" TicketType.TASK)
        (sampleSprint "SPR9")).2.sprint_id = some "SPR9" :=
  (c9_unregistered_sprint [] (sampleTicket "TASK-1" TicketType.TASK)
    (sampleSprint "SPR9") (by decide) rfl).1

/-- C1 counterexample: assigning a ticket with `story_points = 5` and status
Done to a registered sprint with `story_points_committed = 10` leaves
committed at 10 (not 15, as the claim states) and completed at 0 — the code
of `assign_ticket_to_sprint` never touches the rollup fields. -/
theorem c1_counterexample :
    ((assign_ticket_to_sprint
        [{ sampleSprint "SPR1" with story_points_committed := 10 }]
        { sampleTicket "STORY-1" TicketType.STORY with
            status := TicketStatus.DONE, story_points := some 5 }
        { sampleSprint "SPR1" with story_points_committed := 10 }).1.map
      Sprint.story_points_committed = [10] ∧
     (assign_ticket_to_sprint
        [{ sampleSprint "SPR1" with story_points_committed := 10 }]
        { sampleTicket "STORY-1" TicketType.STORY with
            status := TicketStatus.DONE, story_points := some 5 }
        { sampleSprint "SPR1" with story_points_committed := 10 }).1.map
      Sprint.story_points_completed = [0]) ∧ (10 : Int) ≠ 15 := by
  decide

/-- C1 amended: assigning a non-Epic ticket to a registered sprint appends
the ticket's id to that sprint's ticket list and sets the ticket's
`sprint_id` to the sprint's id; the sprint's `story_points_committed` and
`story_points_completed` are not modified (no rollup accounting happens on
assignment). -/
theorem c1_assignment_effect (sprints : List Sprint) (t : Ticket) (s : Sprint)
    (h1 : t.type ≠ TicketType.EPIC)
    (h2 : sprints.any (fun sp => sp.id = s.id) = true) :
    (assign_ticket_to_sprint sprints t s).2
      = { t with sprint_id := some s.id } ∧
    (assign_ticket_to_sprint sprints t s).1
      = sprints.map (fun sp => if sp.id = s.id
          then { sp with tickets := sp.tickets ++ [t.id] } else sp) ∧
    ∀ sp ∈ (assign_ticket_to_sprint sprints t s).1,
      ∃ sp0 ∈ sprints,
        sp.story_points_committed = sp0.story_points_committed ∧
        sp.story_points_completed = sp0.story_points_completed := by
  refine ⟨?_, ?_, assign_points_eq sprints t s⟩ <;>
    simp [assign_ticket_to_sprint, h1, h2]

/-- C1 amended witness: the concrete scenario of the claim, with the
amended outcome. -/
theorem c1_assignment_effect_witness :
    (assign_ticket_to_sprint
        [{ sampleSprint "SPR1" with story_points_committed := 10 }]
        { sampleTicket "STORY-1" TicketType.STORY with
            status := TicketStatus.DONE, story_points := some 5 }
        { sampleSprint "SPR1" with story_points_committed := 10 }).2
      = { sampleTicket "STORY-1" TicketType.STORY with
            status := TicketStatus.DONE, story_points := some 5,
            sprint_id := some "SPR1" } :=
  (c1_assignment_effect _ _ _ (by decide) (by decide)).1

/-- C3 (confirmed): starting from a freshly created sprint (as built by the
sprint-generation loop, with both rollup fields at their default 0), after
any sequence of ticket-to-sprint assignments every sprint in the collection
satisfies `story_points_completed ≤ story_points_committed` — assignments
never modify either field, so both remain 0. -/
theorem c3_rollup_bound (freshId teamName teamId : String) (counter : Nat)
    (dur now : Int) (goal : String) (num_sprints i : Nat)
    (ops : List (Ticket × Sprint)) :
    ∀ sp ∈ applyAssigns ops
        [mkTeamSprint freshId teamName teamId counter dur now goal
          num_sprints i],
      sp.story_points_completed ≤ sp.story_points_committed := by
  intro sp hsp
  obtain ⟨sp0, hsp0, hc, hd⟩ := applyAssigns_points_eq ops _ sp hsp
  simp only [List.mem_singleton] at hsp0
  subst hsp0
  rw [hc, hd]
  simp [mkTeamSprint]

/-- C3 witness: the concrete freshly generated sprint, still a member of the
collection after an empty assignment sequence, satisfies the bound. -/
theorem c3_rollup_bound_witness :
    (mkTeamSprint "SPRINT-a" "Alpha" "T1" 1 14 1000 "g" 2 0).story_points_completed
      ≤ (mkTeamSprint "SPRINT-a" "Alpha" "T1" 1 14 1000 "g" 2
          0).story_points_committed :=
  c3_rollup_bound "SPRINT-a" "Alpha" "T1" 1 14 1000 "g" 2 0 []
    (mkTeamSprint "SPRINT-a" "Alpha" "T1" 1 14 1000 "g" 2 0) (by decide)

/-- C5 (confirmed): with the probability forced to 1.0 the blocking branch of
`_create_blocking_issue` always fires (a `random.random()` draw lies in
`[0, 1)`): the ticket's status becomes Blocked, `blocking_reason` is set to
a member of the fixed reason pool, and `blocked_since` is set to a
time-stamp strictly in the past; both fields are set together.  When the
branch does not fire, the ticket is returned completely unchanged. -/
theorem c5_blocking_controller (t : Ticket) (p r : ℚ) (reasonIdx : Fin 7)
    (d now : Int) (hr0 : 0 ≤ r) (hr1 : r < 1) (hp : p = 1)
    (hd1 : 1 ≤ d) (hd2 : d ≤ 5) :
    ((create_blocking_issue p r reasonIdx d now t).status
        = TicketStatus.BLOCKED ∧
      (∃ reason, (create_blocking_issue p r reasonIdx d now t).blocking_reason
          = some reason ∧ reason ∈ blocking_reasons) ∧
      (∃ ts, (create_blocking_issue p r reasonIdx d now t).blocked_since
          = some ts ∧ ts < now) ∧
      (create_blocking_issue p r reasonIdx d now t).blocking_reason ≠ none ∧
      (create_blocking_issue p r reasonIdx d now t).blocked_since ≠ none) ∧
    ∀ (p' r' : ℚ), ¬ r' < p' →
      create_blocking_issue p' r' reasonIdx d now t = t := by
  subst hp
  have hfire : r < 1 := hr1
  refine ⟨⟨?_, ?_, ?_, ?_, ?_⟩, ?_⟩
  · simp [create_blocking_issue, hfire]
  · exact ⟨blocking_reasons.get (Fin.cast rfl reasonIdx),
      by simp [create_blocking_issue, hfire],
      List.get_mem blocking_reasons (Fin.cast rfl reasonIdx).1
        (Fin.cast rfl reasonIdx).2⟩
  · exact ⟨now - d, by simp [create_blocking_issue, hfire], by omega⟩
  · simp [create_blocking_issue, hfire]
  · simp [create_blocking_issue, hfire]
  · intro p' r' hnot
    simp [create_blocking_issue, hnot]

/-- C5 witness: concrete invocation with the branch forced on. -/
theorem c5_blocking_controller_witness :
    ((create_blocking_issue 1 0 ⟨2, by decide⟩ 3 100
        (sampleTicket "TASK-1" TicketType.TASK)).status
      = TicketStatus.BLOCKED) :=
  (c5_blocking_controller (sampleTicket "TASK-1" TicketType.TASK) 1 0
    ⟨2, by decide⟩ 3 100 (by norm_num) (by norm_num) rfl
    (by norm_num) (by norm_num)).1.1

/-- C7 counterexample: `generate_sprints_for_team` with `num_sprints = 2`
produces a first sprint whose interval lies entirely in the past (so the
claim's rule demands status Planned), yet the code marks it Completed — the
status is chosen by loop index (`Completed` for all but the last, `Active`
for the last), never `Planned`, and no 70–100% back-fill of
`story_points_completed` or velocity derivation exists. -/
theorem c7_counterexample :
    (¬ ((mkTeamSprint "SPRINT-x" "Alpha" "T1" 1 14 1000 "g" 2 0).start_date
          ≤ 1000 ∧
        1000 ≤ (mkTeamSprint "SPRINT-x" "Alpha" "T1" 1 14 1000 "g" 2 0).end_date)) ∧
    (mkTeamSprint "SPRINT-x" "Alpha" "T1" 1 14 1000 "g" 2 0).status
      = SprintStatus.COMPLETED ∧
    (mkTeamSprint "SPRINT-x" "Alpha" "T1" 1 14 1000 "g" 2 0).status
      ≠ SprintStatus.PLANNED ∧
    (mkTeamSprint "SPRINT-x" "Alpha" "T1" 1 14 1000 "g" 2 0).status
      ≠ SprintStatus.ACTIVE := by
  decide

/-- C7 amended: every sprint produced by `generate_sprints_for_team` has
status Completed when it is not the last of the batch and Active when it is
(independently of whether "now" falls within its date range, and never
Planned), and its `story_points_committed`, `story_points_completed` and
`velocity` keep their defaults 0, 0 and `None` — no historical back-fill or
velocity derivation is performed. -/
theorem c7_sprint_generation (freshIds : Nat → String)
    (teamName teamId : String) (counter0 : Nat) (dur now : Int)
    (goals : Nat → String) (num_sprints i : Nat) (h : i < num_sprints) :
    ∃ s, (generate_sprints_for_team freshIds teamName teamId counter0 dur now
        goals num_sprints)[i]? = some s ∧
      s.status = (if i < num_sprints - 1 then SprintStatus.COMPLETED
        else SprintStatus.ACTIVE) ∧
      s.status ≠ SprintStatus.PLANNED ∧
      s.story_points_committed = 0 ∧
      s.story_points_completed = 0 ∧
      s.velocity = none := by
  refine ⟨mkTeamSprint (freshIds i) teamName teamId (counter0 + i) dur now
    (goals i) num_sprints i, ?_, ?_, ?_, rfl, rfl, rfl⟩
  · simp [generate_sprints_for_team, List.getElem?_map, List.getElem?_range, h]
  · rfl
  · simp only [mkTeamSprint]
    split <;> simp

/-- C7 amended witness: the last sprint of a concrete 2-sprint batch. -/
theorem c7_sprint_generation_witness :
    ∃ s, (generate_sprints_for_team (fun _ => "SPRINT-x") "Alpha" "T1" 1 14
        1000 (fun _ => "g") 2)[1]? = some s ∧
      s.status = (if 1 < 2 - 1 then SprintStatus.COMPLETED
        else SprintStatus.ACTIVE) ∧
      s.status ≠ SprintStatus.PLANNED ∧
      s.story_points_committed = 0 ∧
      s.story_points_completed = 0 ∧
      s.velocity = none :=
  c7_sprint_generation (fun _ => "SPRINT-x") "Alpha" "T1" 1 14 1000
    (fun _ => "g") 2 1 (by norm_num)

/-- C4 (confirmed): linking A to B with type blocks and note "x", when both
tickets start with empty relationship lists and empty note maps, yields
`A.blocks = [B.id]`, `B.blocked_by = [A.id]`, stores the note on the source
under the forward type (`A.relationship_notes["blocks"][B.id] == "x"`), and
leaves B's note map unchanged (empty). -/
theorem c4_link_blocks (A B : Ticket) (h1 : A.blocks = [])
    (h2 : B.blocked_by = []) (h3 : A.relationship_notes = [])
    (h4 : B.relationship_notes = []) :
    (create_relationship A B TicketRelationType.BLOCKS (some "x")).map
        (fun p => (p.1.blocks, p.2.blocked_by,
          notesGet p.1.relationship_notes "blocks" B.id,
          p.2.relationship_notes))
      = some ([B.id], [A.id], some "x", []) := by
  simp [create_relationship, reverse_relations, setRel, getRel, relAttrName,
    notesSet, notesGet, dictSet, h1, h2, h3, h4, List.find?]

/-- C4 witness: two concrete fresh tickets. -/
theorem c4_link_blocks_witness :
    (create_relationship (sampleTicket "A" TicketType.TASK)
        (sampleTicket "B" TicketType.TASK) TicketRelationType.BLOCKS
        (some "x")).map
        (fun p => (p.1.blocks, p.2.blocked_by,
          notesGet p.1.relationship_notes "blocks"
            (sampleTicket "B" TicketType.TASK).id,
          p.2.relationship_notes))
      = some (["B"], ["A"], some "x", []) :=
  c4_link_blocks (sampleTicket "A" TicketType.TASK)
    (sampleTicket "B" TicketType.TASK) rfl rfl rfl rfl

/-- C8 (confirmed): the dependency-wiring guard is only a one-hop check —
re-linking in the opposite direction of an existing edge is skipped, but a
three-step sequence of `_create_dependencies` calls over tickets T1, T2, T3
produces the depends-on cycle T1 → T3 → T2 → T1 (length 3 > 1); no
transitive reachability check prevents it. -/
theorem c8_dependency_cycle :
    (create_dependencies
        (create_dependencies
          [sampleTicket "T1" TicketType.TASK, sampleTicket "T2" TicketType.TASK,
            sampleTicket "T3" TicketType.TASK] "T2" true ["T1"])
        "T1" true ["T2"]
      = create_dependencies
          [sampleTicket "T1" TicketType.TASK, sampleTicket "T2" TicketType.TASK,
            sampleTicket "T3" TicketType.TASK] "T2" true ["T1"]) ∧
    (∃ a ∈ create_dependencies (create_dependencies (create_dependencies
          [sampleTicket "T1" TicketType.TASK, sampleTicket "T2" TicketType.TASK,
            sampleTicket "T3" TicketType.TASK]
          "T2" true ["T1"]) "T3" true ["T2"]) "T1" true ["T3"],
        a.id = "T1" ∧ "T3" ∈ a.depends_on) ∧
    (∃ b ∈ create_dependencies (create_dependencies (create_dependencies
          [sampleTicket "T1" TicketType.TASK, sampleTicket "T2" TicketType.TASK,
            sampleTicket "T3" TicketType.TASK]
          "T2" true ["T1"]) "T3" true ["T2"]) "T1" true ["T3"],
        b.id = "T3" ∧ "T2" ∈ b.depends_on) ∧
    (∃ c ∈ create_dependencies (create_dependencies (create_dependencies
          [sampleTicket "T1" TicketType.TASK, sampleTicket "T2" TicketType.TASK,
            sampleTicket "T3" TicketType.TASK]
          "T2" true ["T1"]) "T3" true ["T2"]) "T1" true ["T3"],
        c.id = "T2" ∧ "T1" ∈ c.depends_on) := by
  decide

/-! ## Edge-symmetry lemmas (claim C2) -/

theorem setRel_id (t : Ticket) (T : TicketRelationType) (l : List String) :
    (setRel t T l).id = t.id := by
  cases T <;> rfl

theorem appendRel_id (t : Ticket) (T : TicketRelationType) (x : String) :
    (appendRel t T x).id = t.id :=
  setRel_id t T _

theorem recordNote_id (t : Ticket) (T : TicketRelationType) (tid : String)
    (note : Option String) : (recordNote t T tid note).id = t.id := by
  cases note with
  | none => rfl
  | some n =>
    simp only [recordNote]
    split <;> rfl

theorem getRel_setRel (t : Ticket) (T T' : TicketRelationType)
    (l : List String) :
    getRel (setRel t T l) T' = if T' = T then l else getRel t T' := by
  cases T <;> cases T' <;> simp [getRel, setRel]

theorem getRel_recordNote (t : Ticket) (T : TicketRelationType) (tid : String)
    (note : Option String) (T' : TicketRelationType) :
    getRel (recordNote t T tid note) T' = getRel t T' := by
  cases note with
  | none => rfl
  | some n =>
    simp only [recordNote]
    split
    · rfl
    · cases T' <;> rfl

theorem getRel_appendRel (t : Ticket) (T : TicketRelationType) (x : String)
    (T' : TicketRelationType) :
    getRel (appendRel t T x) T'
      = if T' = T then getRel t T ++ [x] else getRel t T' := by
  simp [appendRel, getRel_setRel]

theorem relUpdateOne_id (srcId tgtId : String) (rt rev : TicketRelationType)
    (note : Option String) (t : Ticket) :
    (relUpdateOne srcId tgtId rt rev note t).id = t.id := by
  simp only [relUpdateOne]
  split <;> split <;>
    simp_all [appendRel_id, recordNote_id]

/-- The relationship list of a ticket after one `_create_relationship`
store update, as a function of its pre-state. -/
theorem getRel_relUpdateOne (srcId tgtId : String)
    (rt rev : TicketRelationType) (note : Option String) (t : Ticket)
    (T : TicketRelationType) :
    getRel (relUpdateOne srcId tgtId rt rev note t) T =
      (if t.id = tgtId ∧ T = rev then
        (if t.id = srcId ∧ T = rt then getRel t T ++ [tgtId] else getRel t T)
          ++ [srcId]
       else
        (if t.id = srcId ∧ T = rt then getRel t T ++ [tgtId]
         else getRel t T)) := by
  have hid1 : (recordNote (appendRel t rt tgtId) rt tgtId note).id = t.id := by
    rw [recordNote_id, appendRel_id]
  simp only [relUpdateOne]
  by_cases h1 : t.id = srcId <;> by_cases h2 : t.id = tgtId <;>
    simp only [h1, h2, hid1, if_true, if_false, ite_true, ite_false,
      eq_self_iff_true, true_and, false_and, and_true, and_false,
      getRel_recordNote, getRel_appendRel, if_pos, if_neg, not_false_iff] <;>
    split_ifs <;> simp_all [getRel_recordNote, getRel_appendRel]

/-- Monotonicity: a store update never removes a relationship entry. -/
theorem relUpdateOne_mono (srcId tgtId : String)
    (rt rev : TicketRelationType) (note : Option String) (t : Ticket)
    (T : TicketRelationType) (x : String) (hx : x ∈ getRel t T) :
    x ∈ getRel (relUpdateOne srcId tgtId rt rev note t) T := by
  rw [getRel_relUpdateOne]
  split_ifs <;> simp [hx]

/-- Every relationship entry after a store update is either an old entry or
one of the two entries the update adds. -/
theorem relUpdateOne_mem_cases (srcId tgtId : String)
    (rt rev : TicketRelationType) (note : Option String) (t : Ticket)
    (T : TicketRelationType) (x : String)
    (h : x ∈ getRel (relUpdateOne srcId tgtId rt rev note t) T) :
    x ∈ getRel t T ∨ (t.id = srcId ∧ T = rt ∧ x = tgtId) ∨
      (t.id = tgtId ∧ T = rev ∧ x = srcId) := by
  rw [getRel_relUpdateOne] at h
  split_ifs at h with hA hB hC
  all_goals try simp only [List.mem_append, List.mem_singleton] at h
  all_goals tauto

/-- The forward entry the update adds to the source ticket. -/
theorem relUpdateOne_src_mem (srcId tgtId : String)
    (rt rev : TicketRelationType) (note : Option String) (t : Ticket)
    (h1 : t.id = srcId) :
    tgtId ∈ getRel (relUpdateOne srcId tgtId rt rev note t) rt := by
  rw [getRel_relUpdateOne]
  split_ifs <;> simp_all

/-- The reverse entry the update adds to the target ticket. -/
theorem relUpdateOne_tgt_mem (srcId tgtId : String)
    (rt rev : TicketRelationType) (note : Option String) (t : Ticket)
    (h2 : t.id = tgtId) :
    srcId ∈ getRel (relUpdateOne srcId tgtId rt rev note t) rev := by
  rw [getRel_relUpdateOne]
  split_ifs <;> simp_all

/-- The source's `reverse_relations` table agrees with the specification's
inverse pairing, in both directions. -/
theorem reverse_relations_invRel (rt rev : TicketRelationType)
    (h : reverse_relations rt = some rev) :
    invRel rt = some rev ∧ invRel rev = some rt := by
  cases rt <;>
    first
      | (injection h with h; subst h; exact ⟨rfl, rfl⟩)
      | exact Option.noConfusion h

/-- One `_create_relationship` store operation preserves edge symmetry. -/
theorem applyRelOp_symm (store store' : List Ticket) (op : RelOp)
    (h0 : Symm store) (h : applyRelOp store op = some store') :
    Symm store' := by
  unfold applyRelOp at h
  cases hrev : reverse_relations op.rt with
  | none => rw [hrev] at h; exact absurd h (by simp)
  | some rev =>
    rw [hrev] at h
    injection h with h
    subst h
    obtain ⟨hinv1, hinv2⟩ := reverse_relations_invRel op.rt rev hrev
    intro a' ha' b' hb' T T' hT hmem
    obtain ⟨a, ha, rfl⟩ := List.mem_map.mp ha'
    obtain ⟨b, hb, rfl⟩ := List.mem_map.mp hb'
    rw [relUpdateOne_id] at hmem
    rw [relUpdateOne_id]
    rcases relUpdateOne_mem_cases op.srcId op.tgtId op.rt rev op.note a T
        b.id hmem with hold | ⟨ha1, hT1, hb1⟩ | ⟨ha1, hT1, hb1⟩
    · exact relUpdateOne_mono op.srcId op.tgtId op.rt rev op.note b T'
        a.id (h0 a ha b hb T T' hT hold)
    · rw [hT1] at hT
      rw [hinv1] at hT
      injection hT with hT
      subst T'
      rw [ha1]
      exact relUpdateOne_tgt_mem op.srcId op.tgtId op.rt rev op.note b hb1
    · rw [hT1] at hT
      rw [hinv2] at hT
      injection hT with hT
      subst T'
      rw [ha1]
      exact relUpdateOne_src_mem op.srcId op.tgtId op.rt rev op.note b hb1

/-- C2 counterexample: a single dependency-wiring operation
(`_create_dependencies`) produces a ticket T1 holding T2 in its depends-on
list while T2 does not hold T1 in its required-for list (the code pairs
`depends_on` with `blocks`, not with `required_for`), so the claimed
symmetry over all edge-creating operations fails. -/
theorem c2_counterexample :
    (∃ a ∈ create_dependencies
        [sampleTicket "T1" TicketType.TASK, sampleTicket "T2" TicketType.TASK]
        "T1" true ["T2"],
      a.id = "T1" ∧ "T2" ∈ a.depends_on) ∧
    (∀ b ∈ create_dependencies
        [sampleTicket "T1" TicketType.TASK, sampleTicket "T2" TicketType.TASK]
        "T1" true ["T2"],
      b.id = "T2" → "T1" ∉ b.required_for) ∧
    invRel TicketRelationType.DEPENDS_ON
      = some TicketRelationType.REQUIRED_FOR ∧
    ¬ Symm (create_dependencies
        [sampleTicket "T1" TicketType.TASK, sampleTicket "T2" TicketType.TASK]
        "T1" true ["T2"]) := by
  decide

/-- C2 amended: edge symmetry holds for every edge created through
`_create_relationship` (which is how relationship creation, clone/duplicate
wiring and implementation wiring add edges): starting from any symmetric
store, after any sequence of `_create_relationship` operations, whenever
ticket A lists B under an edge type with a defined inverse, B lists A under
that inverse.  Dependency wiring (`_create_dependencies`) is excluded: it
appends to the candidate's `blocks` list instead of its `required_for`
list and breaks the symmetry (see the counterexample). -/
theorem c2_edge_symmetry (ops : List RelOp) :
    ∀ store store' : List Ticket, Symm store →
      applyRelOps ops store = some store' → Symm store' := by
  induction ops with
  | nil =>
    intro store store' h0 h
    simp only [applyRelOps, List.foldlM] at h
    injection h with h
    subst h
    exact h0
  | cons op rest ih =>
    intro store store' h0 h
    simp only [applyRelOps, List.foldlM_cons] at h
    cases hstep : applyRelOp store op with
    | none => rw [hstep] at h; exact absurd h (by simp)
    | some mid =>
      rw [hstep] at h
      simp only [Option.bind_eq_bind, Option.some_bind] at h
      exact ih mid store' (applyRelOp_symm store mid op h0 hstep) h

/-! ## Identifier-freshness lemmas (claim C10) -/

theorem digitChar_inj_lt : ∀ d, d < 10 → ∀ e, e < 10 →
    Nat.digitChar d = Nat.digitChar e → d = e := by
  decide

theorem digitChar_ne_dash : ∀ d, d < 10 → Nat.digitChar d ≠ '-' := by
  decide

theorem map_digitChar_inj : ∀ l1 l2 : List Nat, (∀ d ∈ l1, d < 10) →
    (∀ d ∈ l2, d < 10) → l1.map Nat.digitChar = l2.map Nat.digitChar →
    l1 = l2 := by
  intro l1
  induction l1 with
  | nil =>
    intro l2 _ _ h
    cases l2 with
    | nil => rfl
    | cons b t2 => simp at h
  | cons a t1 ih =>
    intro l2 h1 h2 h
    cases l2 with
    | nil => simp at h
    | cons b t2 =>
      simp only [List.map_cons, List.cons.injEq] at h
      have ha : a = b :=
        digitChar_inj_lt a (h1 a (by simp)) b (h2 b (by simp)) h.1
      subst ha
      rw [ih t2 (fun d hd => h1 d (by simp [hd]))
        (fun d hd => h2 d (by simp [hd])) h.2]

theorem natDecimal_ne_dash (n : Nat) : ∀ c ∈ natDecimal n, c ≠ '-' := by
  intro c hc
  unfold natDecimal at hc
  split at hc
  · simp only [List.mem_singleton] at hc
    subst hc
    decide
  · simp only [List.mem_reverse, List.mem_map] at hc
    obtain ⟨d, hd, rfl⟩ := hc
    exact digitChar_ne_dash d (Nat.digits_lt_base (by norm_num) hd)

theorem digits_map_rev_ne_zero_char {n : Nat} (hn : n ≠ 0)
    (h : ((Nat.digits 10 n).map Nat.digitChar).reverse = ['0']) : False := by
  have h' : (Nat.digits 10 n).map Nat.digitChar = ['0'] := by
    have h2 := congrArg List.reverse h
    simpa using h2
  obtain ⟨d, hd, hd0⟩ : ∃ d, Nat.digits 10 n = [d] ∧ Nat.digitChar d = '0' := by
    cases hh : Nat.digits 10 n with
    | nil => rw [hh] at h'; simp at h'
    | cons x t =>
      rw [hh] at h'
      cases t with
      | nil =>
        simp only [List.map_cons, List.map_nil, List.cons.injEq] at h'
        exact ⟨x, rfl, h'.1⟩
      | cons y t2 => simp at h'
  have hx : d < 10 := Nat.digits_lt_base (by norm_num) (by rw [hd]; simp)
  have hd00 : d = 0 :=
    digitChar_inj_lt d hx 0 (by norm_num) (by rw [hd0]; rfl)
  subst hd00
  have hof := Nat.ofDigits_digits 10 n
  rw [hd] at hof
  simp [Nat.ofDigits] at hof
  exact hn hof.symm

/-- The decimal rendering of a natural number is injective. -/
theorem natDecimal_inj {m n : Nat} (h : natDecimal m = natDecimal n) :
    m = n := by
  unfold natDecimal at h
  by_cases hm : m = 0 <;> by_cases hn : n = 0
  · rw [hm, hn]
  · rw [if_pos hm, if_neg hn] at h
    exact absurd h.symm (fun hc => digits_map_rev_ne_zero_char hn hc)
  · rw [if_neg hm, if_pos hn] at h
    exact absurd h (fun hc => digits_map_rev_ne_zero_char hm hc)
  · rw [if_neg hm, if_neg hn] at h
    have h' := List.reverse_injective h
    have hdig := map_digitChar_inj _ _
      (fun d hd => Nat.digits_lt_base (by norm_num) hd)
      (fun d hd => Nat.digits_lt_base (by norm_num) hd) h'
    have h1 := Nat.ofDigits_digits 10 m
    have h2 := Nat.ofDigits_digits 10 n
    rw [hdig] at h1
    exact h1.symm.trans h2

theorem takeWhile_ne_dash_append (s t : List Char)
    (hs : ∀ c ∈ s, c ≠ '-') :
    (s ++ '-' :: t).takeWhile (fun c => c ≠ '-') = s := by
  induction s with
  | nil => simp [List.takeWhile_cons]
  | cons a s2 ih =>
    have ha : a ≠ '-' := hs a (by simp)
    rw [List.cons_append, List.takeWhile_cons, if_pos (decide_eq_true ha),
      ih (fun c hc => hs c (List.mem_cons_of_mem a hc))]

/-- The numeric suffix of a generated ticket id recovers the embedded
counter value's decimal rendering. -/
theorem numSuffix_generate_ticket_id (p : String) (n : Nat) :
    numSuffix (generate_ticket_id p n) = natDecimal n := by
  have hdata : (generate_ticket_id p n).data = p.data ++ '-' :: natDecimal n := by
    simp [generate_ticket_id, String.data_append]
  unfold numSuffix
  rw [hdata, List.reverse_append, List.reverse_cons, List.append_assoc,
    List.singleton_append,
    takeWhile_ne_dash_append _ _
      (fun c hc => natDecimal_ne_dash n c (List.mem_reverse.mp hc)),
    List.reverse_reverse]

/-- Two generated ticket ids agree only when the embedded counter values
agree (regardless of the variant name before the dash). -/
theorem generate_ticket_id_inj_num (p q : String) (m n : Nat)
    (h : generate_ticket_id p m = generate_ticket_id q n) : m = n := by
  have h2 := congrArg numSuffix h
  rw [numSuffix_generate_ticket_id, numSuffix_generate_ticket_id] at h2
  exact natDecimal_inj h2

/-- Inserting a ticket at any slot of a concatenated collection is a
permutation of appending it at the end. -/
theorem perm_insert (P S : List Ticket) (t : Ticket) :
    (P ++ t :: S).Perm ((P ++ S) ++ [t]) := by
  refine List.perm_middle.trans ?_
  have h : ((P ++ S) ++ t :: ([] : List Ticket)).Perm
      (t :: ((P ++ S) ++ ([] : List Ticket))) := List.perm_middle
  simpa using h.symm

/-- A ticket id embedding the current counter value is not among the
registered ids. -/
theorem fresh_id_not_mem (g : TGState) (P : String) (hInv : TGInv g) :
    generate_ticket_id P g.ticket_counter
      ∉ (get_all_tickets g).map Ticket.id := by
  intro hmem
  simp only [List.mem_map] at hmem
  obtain ⟨u, hu, hid⟩ := hmem
  obtain ⟨q, k, hk, hqk⟩ := hInv.1 u hu
  rw [hqk] at hid
  have := generate_ticket_id_inj_num q P k g.ticket_counter hid
  omega

/-- Generic step: creating one ticket whose id embeds the current counter,
bumping the counter, and registering the ticket anywhere preserves the
freshness invariant. -/
theorem tgInv_step (g g' : TGState) (P : String) (t : Ticket)
    (hid : t.id = generate_ticket_id P g.ticket_counter)
    (hc : g'.ticket_counter = g.ticket_counter + 1)
    (hall : (get_all_tickets g').Perm (get_all_tickets g ++ [t]))
    (hInv : TGInv g) : TGInv g' := by
  have hnotmem : t.id ∉ (get_all_tickets g).map Ticket.id := by
    rw [hid]
    exact fresh_id_not_mem g P hInv
  constructor
  · intro u hu
    have hu' := (hall.mem_iff).mp hu
    rw [List.mem_append] at hu'
    rcases hu' with h | h
    · obtain ⟨p, k, hk, he⟩ := hInv.1 u h
      exact ⟨p, k, by omega, he⟩
    · simp only [List.mem_singleton] at h
      subst h
      exact ⟨P, g.ticket_counter, by omega, hid⟩
  · have hperm := hall.map Ticket.id
    rw [hperm.nodup_iff]
    rw [List.map_append]
    rw [List.nodup_append]
    refine ⟨hInv.2, by simp, ?_⟩
    intro x hx
    simp only [List.map_cons, List.map_nil, List.mem_singleton]
    intro hxx
    subst hxx
    exact hnotmem hx

/-- Every single factory invocation preserves the freshness invariant. -/
theorem tgInv_applyFactoryOp (g : TGState) (op : FactoryOp)
    (hInv : TGInv g) : TGInv (applyFactoryOp g op) := by
  cases op with
  | epic a =>
    refine tgInv_step g _ "EPIC" (generate_epic g a).2 rfl rfl ?_ hInv
    have h1 : get_all_tickets (applyFactoryOp g (FactoryOp.epic a))
        = g.epics ++ (generate_epic g a).2
          :: (g.stories ++ (g.tasks ++ (g.subtasks ++ g.bugs))) := by
      simp [get_all_tickets, applyFactoryOp, generate_epic]
    have h2 : get_all_tickets g ++ [(generate_epic g a).2]
        = (g.epics ++ (g.stories ++ (g.tasks ++ (g.subtasks ++ g.bugs))))
          ++ [(generate_epic g a).2] := by
      simp [get_all_tickets]
    rw [h1, h2]
    exact perm_insert _ _ _
  | story a e =>
    refine tgInv_step g _ "STORY" (generate_story g a e).2 rfl rfl ?_ hInv
    have h1 : get_all_tickets (applyFactoryOp g (FactoryOp.story a e))
        = (g.epics ++ g.stories) ++ (generate_story g a e).2
          :: (g.tasks ++ (g.subtasks ++ g.bugs)) := by
      simp [get_all_tickets, applyFactoryOp, generate_story]
    have h2 : get_all_tickets g ++ [(generate_story g a e).2]
        = ((g.epics ++ g.stories) ++ (g.tasks ++ (g.subtasks ++ g.bugs)))
          ++ [(generate_story g a e).2] := by
      simp [get_all_tickets]
    rw [h1, h2]
    exact perm_insert _ _ _
  | task a =>
    refine tgInv_step g _ "TASK" (generate_task g a).2 rfl rfl ?_ hInv
    have h1 : get_all_tickets (applyFactoryOp g (FactoryOp.task a))
        = (g.epics ++ (g.stories ++ g.tasks)) ++ (generate_task g a).2
          :: (g.subtasks ++ g.bugs) := by
      simp [get_all_tickets, applyFactoryOp, generate_task]
    have h2 : get_all_tickets g ++ [(generate_task g a).2]
        = ((g.epics ++ (g.stories ++ g.tasks)) ++ (g.subtasks ++ g.bugs))
          ++ [(generate_task g a).2] := by
      simp [get_all_tickets]
    rw [h1, h2]
    exact perm_insert _ _ _
  | subtask a pid =>
    refine tgInv_step g _ "SUBTASK" (generate_subtask g a pid).2 rfl rfl ?_
      hInv
    have h1 : get_all_tickets (applyFactoryOp g (FactoryOp.subtask a pid))
        = (g.epics ++ (g.stories ++ (g.tasks ++ g.subtasks)))
          ++ (generate_subtask g a pid).2 :: g.bugs := by
      simp [get_all_tickets, applyFactoryOp, generate_subtask]
    have h2 : get_all_tickets g ++ [(generate_subtask g a pid).2]
        = ((g.epics ++ (g.stories ++ (g.tasks ++ g.subtasks))) ++ g.bugs)
          ++ [(generate_subtask g a pid).2] := by
      simp [get_all_tickets]
    rw [h1, h2]
    exact perm_insert _ _ _
  | bug a s x e =>
    refine tgInv_step g _ "BUG" (generate_bug g a s x e).2 rfl rfl ?_ hInv
    have h1 : get_all_tickets (applyFactoryOp g (FactoryOp.bug a s x e))
        = (g.epics ++ (g.stories ++ (g.tasks ++ (g.subtasks ++ g.bugs))))
          ++ (generate_bug g a s x e).2 :: ([] : List Ticket) := by
      simp [get_all_tickets, applyFactoryOp, generate_bug]
    have h2 : get_all_tickets g ++ [(generate_bug g a s x e).2]
        = ((g.epics ++ (g.stories ++ (g.tasks ++ (g.subtasks ++ g.bugs))))
            ++ ([] : List Ticket)) ++ [(generate_bug g a s x e).2] := by
      simp [get_all_tickets]
    rw [h1, h2]
    exact perm_insert _ _ _

/-- C10 (confirmed): after any sequence of factory invocations
(`generate_epic`, `generate_story`, `generate_task`, `generate_subtask`,
`generate_bug`) on a single generator instance, all created tickets have
pairwise distinct identifiers: each creation embeds the shared
`ticket_counter`'s current value in the id and then strictly increments the
counter. -/
theorem c10_distinct_ids (ops : List FactoryOp) :
    ((get_all_tickets (runFactoryOps ops initTGState)).map Ticket.id).Nodup := by
  have main : ∀ g, TGInv g → TGInv (runFactoryOps ops g) := by
    induction ops with
    | nil => intro g h; exact h
    | cons op rest ih =>
      intro g h
      exact ih (applyFactoryOp g op) (tgInv_applyFactoryOp g op h)
  refine (main initTGState ⟨?_, ?_⟩).2 <;>
    simp [get_all_tickets, initTGState]

/-- C2 amended witness: a concrete blocks-edge between two fresh tickets
yields a symmetric store. -/
theorem c2_edge_symmetry_witness :
    Symm [{ sampleTicket "A" TicketType.TASK with blocks := ["B"] },
          { sampleTicket "B" TicketType.TASK with blocked_by := ["A"] }] :=
  c2_edge_symmetry [⟨"A", "B", TicketRelationType.BLOCKS, none⟩]
    [sampleTicket "A" TicketType.TASK, sampleTicket "B" TicketType.TASK]
    [{ sampleTicket "A" TicketType.TASK with blocks := ["B"] },
      { sampleTicket "B" TicketType.TASK with blocked_by := ["A"] }]
    (by decide) (by decide)

end DataGen
